import Mathlib

/-!
Shallow embedding of `src/monitor.js` (ShopifyMonitor): a single-pass site
monitor that runs a navigation check, a key-pages check and a broken-links
check in a headless browser, accumulates `CheckResult` records, writes them
to a local JSON file and appends them to a Google Sheet.

Browser behaviour (navigation outcomes, page titles and contents, element
lookups, console errors) is modelled as an explicit environment; the control
flow and the strings recorded are translated line by line from `monitor.js`.
-/

/-- Boolean list-prefix test (helper for the JS string predicates below). -/
def prefixB : List Char → List Char → Bool
  | [], _ => true
  | _ :: _, [] => false
  | a :: as, b :: bs => a == b && prefixB as bs

/-- Boolean list-infix test (helper for the JS string predicates below). -/
def infixB (pat : List Char) : List Char → Bool
  | [] => prefixB pat []
  | b :: bs => prefixB pat (b :: bs) || infixB pat bs

/-- JavaScript `String.prototype.includes`: substring containment. -/
def includes (s pat : String) : Bool :=
  infixB pat.data s.data

/-- JavaScript `String.prototype.startsWith`. -/
def startsWithJs (s pat : String) : Bool :=
  prefixB pat.data s.data

/-- One row of monitoring output, as built by `ShopifyMonitor.addResult`.
The `status` field is a plain string in the source (the call sites pass
string literals), so it is a `String` here as well. -/
structure CheckResult where
  date : String
  test : String
  status : String
  details : String
  timestamp : String
deriving Repr, DecidableEq

/-- The monitor's mutable state: the run's date (`this.timestamp` in the
source, computed once in the constructor), the append-only `this.results`
list, and a clock supplying the per-result ISO timestamps that
`new Date().toISOString()` would produce, consumed one tick at a time. -/
structure MState where
  date : String
  clock : Nat → String
  tick : Nat
  results : List CheckResult

/-- `ShopifyMonitor.addResult(test, status, details)`: push one record onto
`this.results`, timestamped from the ambient clock. -/
def addResult (st : MState) (test status details : String) : MState :=
  { st with
    results := st.results ++
      [{ date := st.date, test := test, status := status, details := details,
         timestamp := st.clock st.tick }]
    tick := st.tick + 1 }

/-- Outcome of a single `page.goto` call: either the promise rejects with an
error message, or it resolves to a response with the given HTTP status. -/
inductive GotoOutcome where
  | thrown (msg : String)
  | response (status : Nat)
deriving Repr, DecidableEq

/-- Environment for `checkMainNavigation`: the outcome of the homepage
`page.goto`, the page title, and which CSS selectors `page.$` finds. -/
structure NavEnv where
  gotoErr : Option String
  title : String
  find : String → Bool

/-- One entry of the `navChecks` array in `checkMainNavigation`. -/
structure NavCheck where
  selector : String
  name : String
deriving Repr, DecidableEq

/-- The `navChecks` array from the source. -/
def navChecks : List NavCheck :=
  [⟨"header nav", "Main Navigation"⟩,
   ⟨"[href*=\"collections\"]", "Collections Link"⟩,
   ⟨".cart-link, [href*=\"cart\"]", "Cart Link"⟩,
   ⟨".search, [type=\"search\"]", "Search Function"⟩]

/-- Loop body of the `for (const check of navChecks)` loop: `page.$` either
finds the element (PASS) or not (FAIL). -/
def navStep (env : NavEnv) (st : MState) (c : NavCheck) : MState :=
  if env.find c.selector then
    addResult st c.name "PASS" "Element found and accessible"
  else
    addResult st c.name "FAIL" ("Element not found: " ++ c.selector)

/-- `ShopifyMonitor.checkMainNavigation(page)`: navigate to the homepage;
a rejected `goto` is caught and recorded as a Navigation Check FAIL; a title
containing "404" or "Error" records a Homepage Load FAIL and returns early;
otherwise the four `navChecks` probes each record one result. -/
def checkMainNavigation (env : NavEnv) (st : MState) : MState :=
  match env.gotoErr with
  | some msg =>
      addResult st "Navigation Check" "FAIL" ("Error checking navigation: " ++ msg)
  | none =>
      if includes env.title "404" || includes env.title "Error" then
        addResult st "Homepage Load" "FAIL" ("Page title suggests error: " ++ env.title)
      else
        navChecks.foldl (navStep env) st

/-- One entry of the `pagesToCheck` array in `checkKeyPages`. -/
structure PageSpec where
  url : String
  name : String
deriving Repr, DecidableEq

/-- The `pagesToCheck` array from the source. -/
def pagesToCheck : List PageSpec :=
  [⟨"/collections", "Collections Page"⟩,
   ⟨"/pages/about", "About Page"⟩,
   ⟨"/pages/contact", "Contact Page"⟩,
   ⟨"/cart", "Cart Page"⟩,
   ⟨"/account/login", "Login Page"⟩]

/-- Per-URL environment for `checkKeyPages`: the outcome of `page.goto` on
that URL and the document content `page.content()` would return. -/
structure PageEnv where
  goto : GotoOutcome
  content : String
deriving Repr, DecidableEq

/-- Loop body of the `for (const pageCheck of pagesToCheck)` loop, with its
per-page try/catch: a thrown navigation is caught (FAIL "Failed to load");
a 200 response whose content looks like an error page is a FAIL
("404 error detected"), otherwise PASS; any non-200 status is a FAIL
("HTTP <status>"). -/
def keyPageStep (env : String → PageEnv) (st : MState) (p : PageSpec) : MState :=
  match (env p.url).goto with
  | .thrown msg =>
      addResult st p.name "FAIL" ("Failed to load: " ++ msg)
  | .response status =>
      if status == 200 then
        if includes (env p.url).content "404" ||
            includes (env p.url).content "Page not found" then
          addResult st p.name "FAIL" "404 error detected"
        else
          addResult st p.name "PASS" ("Loaded successfully (" ++ toString status ++ ")")
      else
        addResult st p.name "FAIL" ("HTTP " ++ toString status)

/-- `ShopifyMonitor.checkKeyPages(page)`: check each of the five fixed pages
in order, each independently wrapped in try/catch. -/
def checkKeyPages (env : String → PageEnv) (st : MState) : MState :=
  pagesToCheck.foldl (keyPageStep env) st

/-- The href filter passed to `page.$eval` in `checkBrokenLinks`:
`href.startsWith('http') && !href.includes('mailto:') && !href.includes('tel:')`. -/
def qualifies (href : String) : Bool :=
  startsWithJs href "http" && !(includes href "mailto:") && !(includes href "tel:")

/-- The link sample the `$eval` callback was written to compute: filter the
hrefs, then `.slice(0, 10)`.  (Never actually computed at runtime — see
`evalAnchors` below.) -/
def sampleLinks (hrefs : List String) : List String :=
  (hrefs.filter qualifies).take 10

/-- Environment for `checkBrokenLinks`: the outcome of the homepage `goto`,
whether the page has at least one element matching `a[href]`, and the
outcome of `page.goto` on any link the loop would visit. -/
structure LinkEnv where
  gotoHome : Option String
  hasAnchor : Bool
  linkGoto : String → GotoOutcome

/-- The `page.$eval('a[href]', anchors => ...)` call in `checkBrokenLinks`.
Playwright's `$eval` passes the FIRST matching element — a single `Element`,
not an array — to the callback, and rejects when no element matches the
selector.  The source's callback immediately calls `anchors.map`, which is
not a function on a single `Element`, so the awaited call always throws:
the no-match error when the page has no anchor, the `TypeError` from
`anchors.map` otherwise.  It never resolves with a list of hrefs (the
callback body was written for `$$eval` semantics). -/
def evalAnchors (hasAnchor : Bool) : Except String (List String) :=
  if hasAnchor then .error "anchors.map is not a function"
  else .error "failed to find element matching selector \"a[href]\""

/-- Loop body of the `for (const link of links)` loop: a link counts as
broken when its navigation throws or its response status is ≥ 400. -/
def isBroken (env : LinkEnv) (link : String) : Bool :=
  match env.linkGoto link with
  | .thrown _ => true
  | .response s => 400 ≤ s

/-- `ShopifyMonitor.checkBrokenLinks(page)`: navigate home, run the
`page.$eval` extraction, and — per the source text — sample the links,
count the broken ones and record one aggregate result; any error from
`goto`/`$eval` is caught as a Link Check FAIL.  Because `evalAnchors`
always rejects, the `.ok` branch below (the translation of the source's
filter/slice/loop code) is unreachable: every execution lands in one of
the two catch branches. -/
def checkBrokenLinks (env : LinkEnv) (st : MState) : MState :=
  match env.gotoHome with
  | some msg =>
      addResult st "Link Check" "FAIL" ("Error checking links: " ++ msg)
  | none =>
      match evalAnchors env.hasAnchor with
      | .error msg =>
          addResult st "Link Check" "FAIL" ("Error checking links: " ++ msg)
      | .ok hrefs =>
          let links := sampleLinks hrefs
          let brokenCount := (links.filter (isBroken env)).length
          if brokenCount > 0 then
            addResult st "Broken Links" "FAIL"
              ("Found " ++ toString brokenCount ++ " broken links out of " ++
                toString links.length ++ " checked")
          else
            addResult st "Broken Links" "PASS"
              ("All " ++ toString links.length ++ " links working properly")

/-- JSON values, as needed to model `JSON.stringify(this.results, null, 2)`
and `JSON.parse` of the written document (string, array and object nodes). -/
inductive JValue where
  | jstr : String → JValue
  | jarr : List JValue → JValue
  | jobj : List (String × JValue) → JValue
deriving Repr

/-- Serialization of one `CheckResult`, matching the object literal pushed
by `addResult` (field order `date, test, status, details, timestamp`). -/
def resultToJson (r : CheckResult) : JValue :=
  .jobj [("date", .jstr r.date), ("test", .jstr r.test),
         ("status", .jstr r.status), ("details", .jstr r.details),
         ("timestamp", .jstr r.timestamp)]

/-- Parse one serialized `CheckResult` back. -/
def resultOfJson : JValue → Option CheckResult
  | .jobj [("date", .jstr d), ("test", .jstr t), ("status", .jstr s),
           ("details", .jstr de), ("timestamp", .jstr ts)] =>
      some { date := d, test := t, status := s, details := de, timestamp := ts }
  | _ => none

/-- Serialization of the whole result list (`JSON.stringify(this.results, ...)`). -/
def resultsToJson (rs : List CheckResult) : JValue :=
  .jarr (rs.map resultToJson)

/-- Parse a list of serialized results element by element. -/
def resultsOfJsonList : List JValue → Option (List CheckResult)
  | [] => some []
  | x :: xs =>
      match resultOfJson x, resultsOfJsonList xs with
      | some r, some rs => some (r :: rs)
      | _, _ => none

/-- Parse the written document back into a result sequence (`JSON.parse`). -/
def resultsOfJson : JValue → Option (List CheckResult)
  | .jarr xs => resultsOfJsonList xs
  | _ => none

/-- Outcome of `chromium.launch()` (and `browser.newPage()`): both run
before the `try` block in `ShopifyMonitor.run`. -/
inductive LaunchOutcome where
  | ok
  | failed (msg : String)
deriving Repr, DecidableEq

/-- Environment for `uploadToGoogleSheets`: the outcome of parsing the
`GOOGLE_CREDENTIALS` blob / building the auth client, and the outcome of the
`sheets.spreadsheets.values.append` API call. -/
structure SheetsEnv where
  credentials : Except String Unit
  append : Except String Unit

/-- The row built for each result in `uploadToGoogleSheets`
(`[result.date, result.test, result.status, result.details, result.timestamp]`). -/
def sheetRows (results : List CheckResult) : List (List String) :=
  results.map fun r => [r.date, r.test, r.status, r.details, r.timestamp]

/-- The hardcoded header row prepended before the appended values. -/
def headerRow : List String :=
  ["Date", "Test", "Status", "Details", "Timestamp"]

/-- The body of the `try` block in `uploadToGoogleSheets`, as a fallible
computation returning the rows sent to the sheet. -/
def uploadBody (env : SheetsEnv) (results : List CheckResult) :
    Except String (List (List String)) := do
  let _ ← env.credentials
  let rows := headerRow :: sheetRows results
  let _ ← env.append
  pure rows

/-- `ShopifyMonitor.uploadToGoogleSheets()`: the whole body is wrapped in
try/catch; a failure is only logged (`console.error`), never rethrown.
Returns the logged error message, if any. -/
def uploadToGoogleSheets (env : SheetsEnv) (results : List CheckResult) :
    Option String :=
  match uploadBody env results with
  | .ok _ => none
  | .error msg => some ("Failed to upload to Google Sheets: " ++ msg)

/-- The full environment one invocation of `ShopifyMonitor.run` interacts
with: the launch outcome, the run's date, the ambient clock, the browser
behaviour seen by each of the three checks, the console-error messages the
`page.on('console', ...)` listener accumulates over the run, and the
Google Sheets outcome. -/
structure RunEnv where
  launch : LaunchOutcome
  date : String
  clock : Nat → String
  nav : NavEnv
  key : String → PageEnv
  link : LinkEnv
  consoleErrors : List String
  sheets : SheetsEnv

/-- Observable outcome of `ShopifyMonitor.run`: the final `this.results`,
the local file written by `saveResults` (name and serialized document;
`none` when the write was never executed), the error logged by the upload
step, and the error propagating out of `run` (rejected promise), if any. -/
structure RunOutput where
  results : List CheckResult
  savedFile : Option (String × JValue)
  uploadLog : Option String
  thrown : Option String

/-- The fresh monitor state built by the constructor. -/
def initState (env : RunEnv) : MState :=
  { date := env.date, clock := env.clock, tick := 0, results := [] }

/-- The `JavaScript Errors` summary after the three checks: FAIL with the
count and the first three messages comma-joined when any console error was
seen, otherwise PASS. -/
def jsErrorsStep (errors : List String) (st : MState) : MState :=
  if errors.length > 0 then
    addResult st "JavaScript Errors" "FAIL"
      ("Found " ++ toString errors.length ++ " errors: " ++
        String.intercalate ", " (errors.take 3))
  else
    addResult st "JavaScript Errors" "PASS" "No JavaScript errors detected"

/-- `ShopifyMonitor.run()`. `chromium.launch()` and `browser.newPage()` run
BEFORE the `try` block, so a launch failure rejects `run` immediately:
nothing is added to `this.results` and neither `saveResults` nor
`uploadToGoogleSheets` executes. On a successful launch the three checks
run in order, each swallowing its own errors, the console-error summary is
recorded, and then the results are saved locally and uploaded. -/
def run (env : RunEnv) : RunOutput :=
  match env.launch with
  | .failed msg =>
      { results := [], savedFile := none, uploadLog := none, thrown := some msg }
  | .ok =>
      let st1 := checkMainNavigation env.nav (initState env)
      let st2 := checkKeyPages env.key st1
      let st3 := checkBrokenLinks env.link st2
      let st4 := jsErrorsStep env.consoleErrors st3
      { results := st4.results
        savedFile := some ("results-" ++ env.date ++ ".json", resultsToJson st4.results)
        uploadLog := uploadToGoogleSheets env.sheets st4.results
        thrown := none }

/-- Every result in the list carries status "PASS" or "FAIL". -/
def StatusOk (rs : List CheckResult) : Prop :=
  ∀ r ∈ rs, r.status = "PASS" ∨ r.status = "FAIL"

/-! ### Concrete environments used in counterexamples and witnesses -/

/-- A fresh monitor state with a simple deterministic clock. -/
def stC : MState :=
  { date := "2025-01-01", clock := fun n => "T" ++ toString n, tick := 0,
    results := [] }

/-- Homepage behaves: goto resolves, clean title, every selector found. -/
def navOkEnv : NavEnv :=
  { gotoErr := none, title := "Home", find := fun _ => true }

/-- Homepage behaves but none of the probed selectors exists. -/
def navNoneEnv : NavEnv :=
  { gotoErr := none, title := "Home", find := fun _ => false }

/-- Every key page responds 200 with unremarkable content. -/
def keyOkEnv : String → PageEnv :=
  fun _ => { goto := .response 200, content := "ok" }

/-- Every key page responds with HTTP 404. -/
def envC2key : String → PageEnv :=
  fun _ => { goto := .response 404, content := "" }

/-- The `/cart` navigation times out; every other key page responds 200. -/
def envC4key : String → PageEnv :=
  fun u =>
    if u == "/cart" then { goto := .thrown "Timeout 10000ms exceeded", content := "" }
    else { goto := .response 200, content := "ok" }

/-- Broken-links environment: homepage loads, zero anchors on the page. -/
def linkOkEnv : LinkEnv :=
  { gotoHome := none, hasAnchor := false, linkGoto := fun _ => .response 200 }

/-- Broken-links environment whose page does have anchor elements, and in
which every link navigation would answer 200 if it ever happened. -/
def envC7link : LinkEnv :=
  { gotoHome := none, hasAnchor := true, linkGoto := fun _ => .response 200 }

/-- A Sheets environment where authentication and append both succeed. -/
def sheetsOkEnv : SheetsEnv :=
  { credentials := .ok (), append := .ok () }

/-- A Sheets environment whose credential blob fails to parse. -/
def sheetsBadEnv : SheetsEnv :=
  { credentials := .error "invalid credentials", append := .ok () }

/-- A fully healthy run environment. -/
def envBase : RunEnv :=
  { launch := .ok, date := "2025-01-01", clock := fun n => "T" ++ toString n,
    nav := navOkEnv, key := keyOkEnv, link := linkOkEnv, consoleErrors := [],
    sheets := sheetsOkEnv }

/-- The healthy environment, except that `chromium.launch()` rejects. -/
def envLaunchFail : RunEnv :=
  { envBase with launch := .failed "Browser launch failed" }

/-- The healthy environment, except that three console errors were seen. -/
def envC5 : RunEnv :=
  { envBase with consoleErrors := ["e1", "e2", "e3"] }

/-- The healthy environment, except that the Sheets credential is invalid. -/
def envC9 : RunEnv :=
  { envBase with sheets := sheetsBadEnv }

/-! ### Basic lemmas about the embedding -/

theorem addResult_results (st : MState) (t s d : String) :
    (addResult st t s d).results =
      st.results ++
        [{ date := st.date, test := t, status := s, details := d,
           timestamp := st.clock st.tick }] := rfl

theorem addResult_grows (st : MState) (t s d : String) :
    st.results <+: (addResult st t s d).results :=
  ⟨_, rfl⟩

theorem foldl_results_grows {α : Type} (f : MState → α → MState)
    (hf : ∀ st a, st.results <+: (f st a).results) :
    ∀ (l : List α) (st : MState), st.results <+: (List.foldl f st l).results
  | [], _ => List.prefix_refl _
  | a :: l, st => (hf st a).trans (foldl_results_grows f hf l (f st a))

theorem navStep_grows (env : NavEnv) (st : MState) (c : NavCheck) :
    st.results <+: (navStep env st c).results := by
  unfold navStep
  split <;> exact addResult_grows ..

theorem checkMainNavigation_grows (env : NavEnv) (st : MState) :
    st.results <+: (checkMainNavigation env st).results := by
  unfold checkMainNavigation
  split
  · exact addResult_grows ..
  · split
    · exact addResult_grows ..
    · exact foldl_results_grows _ (navStep_grows env) navChecks st

theorem keyPageStep_grows (env : String → PageEnv) (st : MState) (p : PageSpec) :
    st.results <+: (keyPageStep env st p).results := by
  unfold keyPageStep
  split
  · exact addResult_grows ..
  · split <;> [skip; exact addResult_grows ..]
    split <;> exact addResult_grows ..

theorem checkKeyPages_grows (env : String → PageEnv) (st : MState) :
    st.results <+: (checkKeyPages env st).results :=
  foldl_results_grows _ (keyPageStep_grows env) pagesToCheck st

theorem checkBrokenLinks_grows (env : LinkEnv) (st : MState) :
    st.results <+: (checkBrokenLinks env st).results := by
  unfold checkBrokenLinks
  split
  · exact addResult_grows ..
  · split <;> [exact addResult_grows ..; skip]
    dsimp only
    split <;> exact addResult_grows ..

theorem jsErrorsStep_grows (errors : List String) (st : MState) :
    st.results <+: (jsErrorsStep errors st).results := by
  unfold jsErrorsStep
  split <;> exact addResult_grows ..

/-! ### JSON round-trip -/

theorem result_roundtrip (r : CheckResult) :
    resultOfJson (resultToJson r) = some r := by
  cases r; rfl

theorem resultsList_roundtrip (rs : List CheckResult) :
    resultsOfJsonList (rs.map resultToJson) = some rs := by
  induction rs with
  | nil => rfl
  | cons r rs ih => simp [resultsOfJsonList, result_roundtrip, ih]

theorem results_roundtrip (rs : List CheckResult) :
    resultsOfJson (resultsToJson rs) = some rs := by
  simp [resultsToJson, resultsOfJson, resultsList_roundtrip]

/-! ### Status invariant: every recorded status is the literal "PASS" or "FAIL" -/

theorem statusOk_addResult {st : MState} (h : StatusOk st.results)
    (t s d : String) (hs : s = "PASS" ∨ s = "FAIL") :
    StatusOk (addResult st t s d).results := by
  intro r hr
  rcases List.mem_append.1 hr with hr | hr
  · exact h r hr
  · rcases List.mem_singleton.1 hr with rfl
    exact hs

theorem statusOk_foldl {α : Type} (f : MState → α → MState)
    (hf : ∀ st a, StatusOk st.results → StatusOk (f st a).results) :
    ∀ (l : List α) (st : MState), StatusOk st.results →
      StatusOk (List.foldl f st l).results
  | [], _, h => h
  | a :: l, st, h => statusOk_foldl f hf l (f st a) (hf st a h)

theorem statusOk_navStep (env : NavEnv) (st : MState) (c : NavCheck)
    (h : StatusOk st.results) : StatusOk (navStep env st c).results := by
  unfold navStep
  split
  · exact statusOk_addResult h _ _ _ (Or.inl rfl)
  · exact statusOk_addResult h _ _ _ (Or.inr rfl)

theorem statusOk_checkMainNavigation (env : NavEnv) (st : MState)
    (h : StatusOk st.results) : StatusOk (checkMainNavigation env st).results := by
  unfold checkMainNavigation
  split
  · exact statusOk_addResult h _ _ _ (Or.inr rfl)
  · split
    · exact statusOk_addResult h _ _ _ (Or.inr rfl)
    · exact statusOk_foldl _ (statusOk_navStep env) navChecks st h

theorem statusOk_keyPageStep (env : String → PageEnv) (st : MState) (p : PageSpec)
    (h : StatusOk st.results) : StatusOk (keyPageStep env st p).results := by
  unfold keyPageStep
  split
  · exact statusOk_addResult h _ _ _ (Or.inr rfl)
  · split
    · split
      · exact statusOk_addResult h _ _ _ (Or.inr rfl)
      · exact statusOk_addResult h _ _ _ (Or.inl rfl)
    · exact statusOk_addResult h _ _ _ (Or.inr rfl)

theorem statusOk_checkKeyPages (env : String → PageEnv) (st : MState)
    (h : StatusOk st.results) : StatusOk (checkKeyPages env st).results :=
  statusOk_foldl _ (statusOk_keyPageStep env) pagesToCheck st h

theorem statusOk_checkBrokenLinks (env : LinkEnv) (st : MState)
    (h : StatusOk st.results) : StatusOk (checkBrokenLinks env st).results := by
  unfold checkBrokenLinks
  split
  · exact statusOk_addResult h _ _ _ (Or.inr rfl)
  · split
    · exact statusOk_addResult h _ _ _ (Or.inr rfl)
    · dsimp only
      split
      · exact statusOk_addResult h _ _ _ (Or.inr rfl)
      · exact statusOk_addResult h _ _ _ (Or.inl rfl)

theorem statusOk_jsErrorsStep (errors : List String) (st : MState)
    (h : StatusOk st.results) : StatusOk (jsErrorsStep errors st).results := by
  unfold jsErrorsStep
  split
  · exact statusOk_addResult h _ _ _ (Or.inr rfl)
  · exact statusOk_addResult h _ _ _ (Or.inl rfl)

theorem navStep_length (env : NavEnv) (st : MState) (c : NavCheck) :
    (navStep env st c).results.length = st.results.length + 1 := by
  unfold navStep
  split <;> simp [addResult]

theorem keyPageStep_length (env : String → PageEnv) (st : MState) (p : PageSpec) :
    (keyPageStep env st p).results.length = st.results.length + 1 := by
  unfold keyPageStep
  split
  · simp [addResult]
  · split
    · split <;> simp [addResult]
    · simp [addResult]

/-! ### Claim C1 -/

/-- Claim C1 counterexample: with a failing `chromium.launch()` the run
appends no result at all (in particular no "Monitor Execution" FAIL) and
never reaches `saveResults`; the launch error propagates out of `run`. -/
theorem c1_counterexample :
    (run envLaunchFail).results = [] ∧ (run envLaunchFail).savedFile = none ∧
      (run envLaunchFail).thrown = some "Browser launch failed" :=
  ⟨rfl, rfl, rfl⟩

/-- Claim C1 (amended): `chromium.launch()` runs before the `try` block of
`ShopifyMonitor.run`, so a launch failure rejects `run` with the launch
error: no result is appended to the result sequence and the local results
file write is never attempted. -/
theorem c1_launch_failure (env : RunEnv) (msg : String)
    (h : env.launch = .failed msg) :
    (run env).results = [] ∧ (run env).savedFile = none ∧
      (run env).thrown = some msg := by
  unfold run
  rw [h]
  exact ⟨rfl, rfl, rfl⟩

/-- Claim C1 witness: the amended statement evaluated on a concrete
environment whose browser launch fails. -/
theorem c1_witness :
    (run envLaunchFail).results = [] ∧ (run envLaunchFail).savedFile = none ∧
      (run envLaunchFail).thrown = some "Browser launch failed" :=
  c1_launch_failure envLaunchFail "Browser launch failed" rfl

/-! ### Claim C2 -/

/-- Claim C2 counterexample: a key page whose navigation returns HTTP 404 is
recorded with status FAIL (details "HTTP 404"), not WARN: every key page of
`envC2key` answers 404 and all five recorded results are FAIL. -/
theorem c2_counterexample :
    (envC2key "/collections").goto = .response 404 ∧
    ((checkKeyPages envC2key stC).results.map fun r => (r.test, r.status, r.details)) =
      [("Collections Page", "FAIL", "HTTP 404"), ("About Page", "FAIL", "HTTP 404"),
       ("Contact Page", "FAIL", "HTTP 404"), ("Cart Page", "FAIL", "HTTP 404"),
       ("Login Page", "FAIL", "HTTP 404")] := by
  decide

/-- Claim C2 (amended): for every key-page check whose navigation returns a
response with HTTP status 404, the recorded result for that page has status
FAIL with details "HTTP 404" (the 404 branch is not distinguished from any
other non-200 status). -/
theorem c2_keypage_404_fail (env : String → PageEnv) (st : MState) (p : PageSpec)
    (h : (env p.url).goto = .response 404) :
    (keyPageStep env st p).results = st.results ++
      [{ date := st.date, test := p.name, status := "FAIL", details := "HTTP 404",
         timestamp := st.clock st.tick }] := by
  unfold keyPageStep
  rw [h]
  rfl

/-- Claim C2 witness: the amended statement evaluated on the Collections
page of a concrete environment answering 404 everywhere. -/
theorem c2_witness :
    (keyPageStep envC2key stC ⟨"/collections", "Collections Page"⟩).results =
      stC.results ++
        [{ date := stC.date, test := "Collections Page", status := "FAIL",
           details := "HTTP 404", timestamp := stC.clock stC.tick }] :=
  c2_keypage_404_fail envC2key stC ⟨"/collections", "Collections Page"⟩ rfl

/-! ### Claim C3 -/

/-- Claim C3 counterexample: a navigation-element probe whose selector is
not found records status FAIL ("Element not found: ..."), not WARN: in
`navNoneEnv` no selector is found and all four probes record FAIL. -/
theorem c3_counterexample :
    navNoneEnv.find "header nav" = false ∧
    ((checkMainNavigation navNoneEnv stC).results.map fun r => (r.test, r.status)) =
      [("Main Navigation", "FAIL"), ("Collections Link", "FAIL"),
       ("Cart Link", "FAIL"), ("Search Function", "FAIL")] := by
  decide

/-- Claim C3 (amended): a navigation-element probe whose selector is not
found records a FAIL result ("Element not found: <selector>"); the run is
not aborted — with a clean homepage load all four probes still record
exactly one result each. -/
theorem c3_probe_notfound_fail (env : NavEnv) (st : MState) (c : NavCheck)
    (hf : env.find c.selector = false) (hg : env.gotoErr = none)
    (ht : (includes env.title "404" || includes env.title "Error") = false) :
    (navStep env st c).results = st.results ++
      [{ date := st.date, test := c.name, status := "FAIL",
         details := "Element not found: " ++ c.selector,
         timestamp := st.clock st.tick }] ∧
    (checkMainNavigation env st).results.length = st.results.length + 4 := by
  constructor
  · unfold navStep
    rw [hf]
    rfl
  · unfold checkMainNavigation
    rw [hg]
    dsimp only
    rw [ht]
    simp [navChecks, navStep_length]

/-- Claim C3 witness: the amended statement evaluated on the "Main
Navigation" probe of a concrete environment where no selector exists. -/
theorem c3_witness :
    ((navStep navNoneEnv stC ⟨"header nav", "Main Navigation"⟩).results =
      stC.results ++
        [{ date := stC.date, test := "Main Navigation", status := "FAIL",
           details := "Element not found: " ++ "header nav",
           timestamp := stC.clock stC.tick }]) ∧
    (checkMainNavigation navNoneEnv stC).results.length = stC.results.length + 4 :=
  c3_probe_notfound_fail navNoneEnv stC ⟨"header nav", "Main Navigation"⟩ rfl rfl
    (by decide)

/-! ### Claim C4 -/

/-- Claim C4 counterexample: a key-page navigation that throws a timeout
error is recorded as FAIL "Failed to load: ..." (no WARN, no "loading
slowly"): in `envC4key` the `/cart` navigation times out, yet the Cart Page
result is FAIL while the pages after it are still checked. -/
theorem c4_counterexample :
    (envC4key "/cart").goto = .thrown "Timeout 10000ms exceeded" ∧
    ((checkKeyPages envC4key stC).results.map fun r => (r.test, r.status, r.details)) =
      [("Collections Page", "PASS", "Loaded successfully (200)"),
       ("About Page", "PASS", "Loaded successfully (200)"),
       ("Contact Page", "PASS", "Loaded successfully (200)"),
       ("Cart Page", "FAIL", "Failed to load: Timeout 10000ms exceeded"),
       ("Login Page", "PASS", "Loaded successfully (200)")] := by
  decide

/-- Claim C4 (amended): a key-page navigation error — timeouts included —
is caught by the per-page try/catch and recorded as FAIL with details
"Failed to load: <message>"; the loop is not aborted: the key-pages check
always records exactly one result per page (five in total). -/
theorem c4_keypage_thrown_fail (env : String → PageEnv) (st : MState)
    (p : PageSpec) (msg : String) (h : (env p.url).goto = .thrown msg) :
    (keyPageStep env st p).results = st.results ++
      [{ date := st.date, test := p.name, status := "FAIL",
         details := "Failed to load: " ++ msg, timestamp := st.clock st.tick }] ∧
    (checkKeyPages env st).results.length = st.results.length + 5 := by
  constructor
  · unfold keyPageStep
    rw [h]
    rfl
  · unfold checkKeyPages
    simp [pagesToCheck, keyPageStep_length]

/-- Claim C4 witness: the amended statement evaluated on the Cart page of a
concrete environment where `/cart` times out. -/
theorem c4_witness :
    ((keyPageStep envC4key stC ⟨"/cart", "Cart Page"⟩).results =
      stC.results ++
        [{ date := stC.date, test := "Cart Page", status := "FAIL",
           details := "Failed to load: " ++ "Timeout 10000ms exceeded",
           timestamp := stC.clock stC.tick }]) ∧
    (checkKeyPages envC4key stC).results.length = stC.results.length + 5 :=
  c4_keypage_thrown_fail envC4key stC ⟨"/cart", "Cart Page"⟩
    "Timeout 10000ms exceeded" (by decide)

/-! ### Claim C5 -/

/-- Claim C5 counterexample: with three accumulated console errors the
JavaScript Errors result has status FAIL (not WARN) and its sample joins
the first THREE messages, not the first two. -/
theorem c5_counterexample :
    envC5.consoleErrors = ["e1", "e2", "e3"] ∧
    ((run envC5).results.getLast?).map (fun r => (r.test, r.status, r.details)) =
      some ("JavaScript Errors", "FAIL", "Found 3 errors: e1, e2, e3") := by
  decide

/-- Claim C5 (amended): after all navigation completes, if the accumulated
console-error list is non-empty the JavaScript-errors result — the last
result of the run — has status FAIL with the error count and the first
three messages comma-joined; if the list is empty the result is PASS. -/
theorem c5_js_errors_summary (env : RunEnv) (h : env.launch = .ok) :
    ((run env).results.getLast?).map (fun r => (r.test, r.status, r.details)) =
      some ("JavaScript Errors",
        if env.consoleErrors.length > 0 then "FAIL" else "PASS",
        if env.consoleErrors.length > 0 then
          "Found " ++ toString env.consoleErrors.length ++ " errors: " ++
            String.intercalate ", " (env.consoleErrors.take 3)
        else "No JavaScript errors detected") := by
  unfold run
  rw [h]
  dsimp only
  unfold jsErrorsStep
  split
  · rename_i hc
    rw [addResult_results, List.getLast?_concat]
    simp [hc]
  · rename_i hc
    rw [addResult_results, List.getLast?_concat]
    simp [hc]

/-- Claim C5 witness: the amended statement evaluated on a concrete run
that saw three console errors. -/
theorem c5_witness :
    ((run envC5).results.getLast?).map (fun r => (r.test, r.status, r.details)) =
      some ("JavaScript Errors",
        if envC5.consoleErrors.length > 0 then "FAIL" else "PASS",
        if envC5.consoleErrors.length > 0 then
          "Found " ++ toString envC5.consoleErrors.length ++ " errors: " ++
            String.intercalate ", " (envC5.consoleErrors.take 3)
        else "No JavaScript errors detected") :=
  c5_js_errors_summary envC5 rfl

/-! ### Claim C6 -/

/-- Claim C6 counterexample: on a root page with zero anchor elements (so
zero qualifying links) the recorded result is "Link Check" FAIL — the
`$eval` extraction rejects — not WARN and not "no internal links found". -/
theorem c6_counterexample :
    linkOkEnv.hasAnchor = false ∧
    ((checkBrokenLinks linkOkEnv stC).results.map fun r => (r.test, r.status, r.details)) =
      [("Link Check", "FAIL",
        "Error checking links: failed to find element matching selector \"a[href]\"")] := by
  decide

/-- Claim C6 (amended): if the root page has no anchor element (hence zero
qualifying links), `page.$eval` rejects with its no-match error and the
check records a single "Link Check" result with status FAIL and details
"Error checking links: failed to find element matching selector
\"a[href]\"" — not WARN — and no navigation to any sampled link is
attempted: the outcome is independent of the per-link navigation
behaviour. -/
theorem c6_no_links_fail (env : LinkEnv) (st : MState)
    (hg : env.gotoHome = none) (ha : env.hasAnchor = false) :
    (checkBrokenLinks env st).results = st.results ++
      [{ date := st.date, test := "Link Check", status := "FAIL",
         details :=
           "Error checking links: failed to find element matching selector \"a[href]\"",
         timestamp := st.clock st.tick }] ∧
    ∀ g : String → GotoOutcome,
      checkBrokenLinks { env with linkGoto := g } st = checkBrokenLinks env st := by
  constructor
  · unfold checkBrokenLinks evalAnchors
    rw [hg]
    dsimp only
    rw [ha]
    rfl
  · intro g
    unfold checkBrokenLinks evalAnchors
    dsimp only
    rw [hg]
    dsimp only
    rw [ha]
    rfl

/-- Claim C6 witness: the amended statement evaluated on a concrete
environment whose page has no anchors at all. -/
theorem c6_witness :
    ((checkBrokenLinks linkOkEnv stC).results = stC.results ++
      [{ date := stC.date, test := "Link Check", status := "FAIL",
         details :=
           "Error checking links: failed to find element matching selector \"a[href]\"",
         timestamp := stC.clock stC.tick }]) ∧
    ∀ g : String → GotoOutcome,
      checkBrokenLinks { linkOkEnv with linkGoto := g } stC =
        checkBrokenLinks linkOkEnv stC :=
  c6_no_links_fail linkOkEnv stC rfl rfl

/-! ### Claim C7 -/

/-- Claim C7 counterexample: no link is ever sampled, let alone the first 5
internal ones: on a page that does have anchor elements (and whose every
link would answer 200), the `$eval` callback's `anchors.map` throws on the
single element it receives and the check records only "Link Check" FAIL —
there is no "Broken Links" result and no sample of any size. -/
theorem c7_counterexample :
    envC7link.hasAnchor = true ∧
    ((checkBrokenLinks envC7link stC).results.map fun r => (r.test, r.status, r.details)) =
      [("Link Check", "FAIL", "Error checking links: anchors.map is not a function")] := by
  decide

/-- Claim C7 (amended): the broken-links check never samples any link: the
`page.$eval` extraction always rejects (`$eval` hands the callback a single
element, whose `.map` is not a function; with no anchor it rejects
outright), so in every environment the check records exactly one
"Link Check" FAIL result — whose message depends only on the homepage
`goto` outcome and on whether an anchor exists — and never navigates to any
link: the outcome is independent of the per-link navigation behaviour. -/
theorem c7_no_sampling (env : LinkEnv) (st : MState) :
    (checkBrokenLinks env st).results = st.results ++
      [{ date := st.date, test := "Link Check", status := "FAIL",
         details := "Error checking links: " ++
           (match env.gotoHome with
            | some m => m
            | none =>
                if env.hasAnchor then "anchors.map is not a function"
                else "failed to find element matching selector \"a[href]\""),
         timestamp := st.clock st.tick }] ∧
    ∀ g : String → GotoOutcome,
      checkBrokenLinks { env with linkGoto := g } st = checkBrokenLinks env st := by
  constructor
  · unfold checkBrokenLinks evalAnchors
    cases hg : env.gotoHome with
    | some m => rfl
    | none =>
      dsimp only
      cases ha : env.hasAnchor with
      | false => rfl
      | true => rfl
  · intro g
    unfold checkBrokenLinks evalAnchors
    dsimp only
    cases hg : env.gotoHome with
    | some m => rfl
    | none =>
      dsimp only
      cases ha : env.hasAnchor with
      | false => rfl
      | true => rfl

/-- Claim C7 witness: the amended statement evaluated on the concrete
anchor-bearing environment. -/
theorem c7_witness :
    ((checkBrokenLinks envC7link stC).results.map fun r => (r.test, r.status)) =
      [("Link Check", "FAIL")] := by
  have h := c7_no_sampling envC7link stC
  rw [h.1]
  rfl

/-! ### Claim C8 -/

/-- Claim C8: on every completed run the local file written by
`saveResults` is named by the run's date and holds exactly the serialized
in-memory result sequence; parsing it back yields an equal sequence; and
that sequence decomposes, in order, into the results appended by the
navigation check, then the key-pages check, then the links check, then the
JavaScript-errors summary. -/
theorem c8_local_file_roundtrip (env : RunEnv) (h : env.launch = .ok) :
    ∃ doc keyR linkR jsR,
      (run env).savedFile = some ("results-" ++ env.date ++ ".json", doc) ∧
      doc = resultsToJson ((run env).results) ∧
      resultsOfJson doc = some ((run env).results) ∧
      (run env).results =
        (checkMainNavigation env.nav (initState env)).results ++ keyR ++ linkR ++ jsR ∧
      (checkMainNavigation env.nav (initState env)).results ++ keyR =
        (checkKeyPages env.key (checkMainNavigation env.nav (initState env))).results ∧
      (checkMainNavigation env.nav (initState env)).results ++ keyR ++ linkR =
        (checkBrokenLinks env.link
          (checkKeyPages env.key (checkMainNavigation env.nav (initState env)))).results := by
  obtain ⟨keyR, hk⟩ :=
    checkKeyPages_grows env.key (checkMainNavigation env.nav (initState env))
  obtain ⟨linkR, hl⟩ :=
    checkBrokenLinks_grows env.link
      (checkKeyPages env.key (checkMainNavigation env.nav (initState env)))
  obtain ⟨jsR, hj⟩ :=
    jsErrorsStep_grows env.consoleErrors
      (checkBrokenLinks env.link
        (checkKeyPages env.key (checkMainNavigation env.nav (initState env))))
  refine ⟨resultsToJson ((run env).results), keyR, linkR, jsR, ?_, rfl,
    results_roundtrip _, ?_, hk, ?_⟩
  · unfold run
    rw [h]
  · unfold run
    rw [h]
    dsimp only
    rw [← hj, ← hl, ← hk]
  · rw [hk]
    exact hl

/-- Claim C8 witness: the round-trip statement evaluated on the healthy
concrete environment. -/
theorem c8_witness :
    ∃ doc keyR linkR jsR,
      (run envBase).savedFile = some ("results-" ++ envBase.date ++ ".json", doc) ∧
      doc = resultsToJson ((run envBase).results) ∧
      resultsOfJson doc = some ((run envBase).results) ∧
      (run envBase).results =
        (checkMainNavigation envBase.nav (initState envBase)).results ++
          keyR ++ linkR ++ jsR ∧
      (checkMainNavigation envBase.nav (initState envBase)).results ++ keyR =
        (checkKeyPages envBase.key
          (checkMainNavigation envBase.nav (initState envBase))).results ∧
      (checkMainNavigation envBase.nav (initState envBase)).results ++ keyR ++ linkR =
        (checkBrokenLinks envBase.link
          (checkKeyPages envBase.key
            (checkMainNavigation envBase.nav (initState envBase)))).results :=
  c8_local_file_roundtrip envBase rfl

/-! ### Claim C9 -/

/-- Claim C9: a failing Sheets upload (unparsable credential blob, or an
API/network error on append) is caught inside `uploadToGoogleSheets` and
only logged: the run still does not throw, and neither the collected
results nor the already-written local file depend on the Sheets outcome in
any way. -/
theorem c9_upload_failure_contained (env : RunEnv) (msg : String)
    (h : env.launch = .ok)
    (hf : env.sheets.credentials = .error msg ∨
      (env.sheets.credentials = .ok () ∧ env.sheets.append = .error msg)) :
    (run env).thrown = none ∧
    (run env).uploadLog = some ("Failed to upload to Google Sheets: " ++ msg) ∧
    ∀ s : SheetsEnv,
      (run { env with sheets := s }).results = (run env).results ∧
      (run { env with sheets := s }).savedFile = (run env).savedFile ∧
      (run { env with sheets := s }).thrown = (run env).thrown := by
  refine ⟨?_, ?_, ?_⟩
  · unfold run
    rw [h]
  · unfold run
    rw [h]
    dsimp only
    unfold uploadToGoogleSheets uploadBody
    rcases hf with hc | ⟨hc, ha⟩
    · rw [hc]
      rfl
    · rw [hc, ha]
      rfl
  · intro s
    unfold run
    have hl : ({ env with sheets := s } : RunEnv).launch = .ok := h
    rw [hl]
    exact ⟨rfl, rfl, rfl⟩

/-- Claim C9 witness: the containment statement evaluated on a concrete
environment whose Sheets credential blob is invalid. -/
theorem c9_witness :
    (run envC9).thrown = none ∧
    (run envC9).uploadLog =
      some ("Failed to upload to Google Sheets: " ++ "invalid credentials") ∧
    ∀ s : SheetsEnv,
      (run { envC9 with sheets := s }).results = (run envC9).results ∧
      (run { envC9 with sheets := s }).savedFile = (run envC9).savedFile ∧
      (run { envC9 with sheets := s }).thrown = (run envC9).thrown :=
  c9_upload_failure_contained envC9 "invalid credentials" rfl (Or.inl rfl)

/-! ### Claim C10 -/

/-- Claim C10: every `CheckResult` the program ever appends carries status
"PASS" or "FAIL"; no code path produces a "WARN" result, even though the
data model admits arbitrary status strings. -/
theorem c10_status_pass_or_fail (env : RunEnv) (r : CheckResult)
    (h : r ∈ (run env).results) : r.status = "PASS" ∨ r.status = "FAIL" := by
  have hSt : StatusOk (run env).results := by
    unfold run
    cases hl : env.launch with
    | failed msg =>
      intro x hx
      simp at hx
    | ok =>
      dsimp only
      exact statusOk_jsErrorsStep _ _
        (statusOk_checkBrokenLinks _ _
          (statusOk_checkKeyPages _ _
            (statusOk_checkMainNavigation _ _
              (fun x hx => absurd hx (List.not_mem_nil x)))))
  exact hSt r h

/-- Claim C10 witness: the invariant applied to a concrete member of a
concrete run's result list. -/
theorem c10_witness :
    ({ date := "2025-01-01", test := "Main Navigation", status := "PASS",
       details := "Element found and accessible", timestamp := "T0" } :
      CheckResult).status = "PASS" ∨
    ({ date := "2025-01-01", test := "Main Navigation", status := "PASS",
       details := "Element found and accessible", timestamp := "T0" } :
      CheckResult).status = "FAIL" :=
  c10_status_pass_or_fail envBase _ (by decide)
